import Mathlib

/-!
Verification development for the job-lifecycle subsystem of the
code-agent orchestration platform: cost ledger, budget enforcement,
retry policy, circuit breaker, token accounting, tool-output
truncation, and the cost dashboard rendering guard.

The cost ledger, budget enforcement and error-recovery definitions are
translated from the implementation summary shipped in the repository
(scripts/create-project.sh, which embeds the summary of
services/cost_tracking.py, services/error_recovery.py and the worker
integration); where the summary only declares a behaviour, the
definition is modelled from the specification and says so in its doc
comment.  The dashboard rendering is translated from
frontend/src/pages/Costs.jsx.  Money and percentages are modelled as
exact rationals (the source computes with IEEE doubles); token counts,
delays and timestamps are naturals.
-/

namespace CodeAgent

/-- Providers appearing in the provider pricing database of
`services/cost_tracking.py` (table reproduced in the implementation
summary). -/
inductive Provider
| anthropic
| openai
| google
| groq
| xai
deriving DecidableEq

/-- Models appearing in the provider pricing database. -/
inductive LLMModel
| claudeSonnet4
| claudeHaiku45
| gpt51
| gemini25Flash
| llama3370B
| grok41Fast
deriving DecidableEq

/-- Pricing database: USD per million tokens, `(input, output)`, as in
the pricing table of the implementation summary (Claude Sonnet 4
3.00/15.00, Claude Haiku 4.5 0.25/1.25, GPT-5.1 10.00/30.00, Gemini
2.5 Flash 0.075/0.30, Llama 3.3 70B 0.59/0.79, Grok 4-1 Fast
5.00/15.00). -/
def pricing (provider : Provider) (model : LLMModel) : Option (ℚ × ℚ) :=
  match provider, model with
  | .anthropic, .claudeSonnet4 => some (3, 15)
  | .anthropic, .claudeHaiku45 => some (1/4, 5/4)
  | .openai, .gpt51 => some (10, 30)
  | .google, .gemini25Flash => some (3/40, 3/10)
  | .groq, .llama3370B => some (59/100, 79/100)
  | .xai, .grok41Fast => some (5, 15)
  | _, _ => none

/-- Cost of a usage, translated from `calculate_cost` in the
implementation summary:
`input_cost = (input_tokens / 1_000_000) * pricing["input"]`,
`output_cost = (output_tokens / 1_000_000) * pricing["output"]`,
returning their sum; `none` when the pricing table has no entry. -/
def calculate_cost (provider : Provider) (model : LLMModel)
    (input_tokens output_tokens : ℕ) : Option ℚ :=
  match pricing provider model with
  | some pr =>
      some ((input_tokens : ℚ) / 1000000 * pr.1 + (output_tokens : ℚ) / 1000000 * pr.2)
  | none => none

/-- Budget status classification values (ok, warning, critical,
exceeded). -/
inductive BudgetStatus
| ok
| warning
| critical
| exceeded
deriving DecidableEq

/-- Modelled from the spec: the budget-status classification of
`services/cost_tracking.py` is absent from the tree; the summary and
the spec give the thresholds ok (<80%), warning (80-94.999%), critical
(95-99.999%), exceeded (>= 100%). -/
def classify_budget (pct : ℚ) : BudgetStatus :=
  if 100 ≤ pct then .exceeded
  else if 95 ≤ pct then .critical
  else if 80 ≤ pct then .warning
  else .ok

/-- Budget status of a project with an allocated budget: classify the
percentage used, `actual / allocated * 100`. -/
def budget_status (allocated actual : ℚ) : BudgetStatus :=
  classify_budget (actual / allocated * 100)

/-- Storage semantics of the job cost columns: the migration in the
implementation summary declares `actual_cost NUMERIC(10,2)` (and
`estimated_cost NUMERIC(10,2)`), so a written value is rounded to two
decimal places. -/
def storeNumeric2 (x : ℚ) : ℚ := (round (x * 100) : ℤ) / 100

/-- Job status values of the jobs table (pending, running, completed,
failed, blocked, dead_letter). -/
inductive JobStatus
| pending
| running
| completed
| failed
| blocked
| deadLetter
deriving DecidableEq

/-- Job row, restricted to the error-recovery and cost-tracking fields
added by the migration in the implementation summary (`retry_count`,
`max_retries`, `failure_reason`, `next_retry_at`,
`tokens_used_input/output/total`). -/
structure Job where
  status : JobStatus
  retry_count : ℕ
  max_retries : ℕ
  failure_reason : Option String
  next_retry_at : Option ℕ
  tokens_used_input : ℕ
  tokens_used_output : ℕ
  tokens_used_total : ℕ
deriving DecidableEq

/-- Modelled from the spec: `enforce_budget_limit` of
`services/cost_tracking.py` is absent from the tree; per the summary
("Automatic Blocking: Jobs blocked if budget exceeded") and the spec it
admits a job unless the project has an allocated budget whose budget
status is exceeded. -/
def enforce_budget_limit (budget_allocated : Option ℚ) (actual : ℚ) : Bool :=
  match budget_allocated with
  | none => true
  | some alloc => if budget_status alloc actual = .exceeded then false else true

/-- Dispatch guard before starting a pending job, translated from the
worker-integration snippet in the implementation summary:
`if not enforce_budget_limit(...): job.status = "blocked";
job.failure_reason = "Project budget exceeded"; return` — otherwise
the job transitions to running and a provider call is issued.  The
boolean component records whether a provider call is issued. -/
def dispatch_pending (job : Job) (budget_allocated : Option ℚ) (actual : ℚ) :
    Job × Bool :=
  if enforce_budget_limit budget_allocated actual then
    ({ job with status := .running }, true)
  else
    ({ job with status := .blocked,
                failure_reason := some "Project budget exceeded" }, false)

/-- Error classification used by the retry policy: retriable versus
terminal (admin-cancelled and budget-blocked are terminal). -/
inductive ErrorKind
| retriable
| terminal
deriving DecidableEq

/-- Decision of the retry policy. -/
inductive RetryDecision
| retry (delay : ℕ)
| dead_letter
deriving DecidableEq

/-- Backoff base, 60 seconds. -/
def backoff_base : ℕ := 60

/-- Backoff ceiling, 480 seconds (summary: "Exponential backoff:
60s → 120s → 240s → 480s"). -/
def backoff_ceiling : ℕ := 480

/-- Exponential backoff delay in seconds,
`min (base * 2 ^ retry_count) ceiling`. -/
def backoff_delay (retry_count : ℕ) : ℕ :=
  min (backoff_base * 2 ^ retry_count) backoff_ceiling

/-- Modelled from the spec: the `RetryManager` of
`services/error_recovery.py` is absent from the tree; per the summary
lifecycle diagram and the spec, a retriable failure with
`retry_count < max_retries` retries after the backoff delay and
everything else dead-letters. -/
def retry_decision (retry_count max_retries : ℕ) (err : ErrorKind) : RetryDecision :=
  if retry_count < max_retries ∧ err = .retriable then
    .retry (backoff_delay retry_count)
  else
    .dead_letter

/-- Modelled from the spec: `handle_job_failure` of
`services/error_recovery.py` is absent from the tree; on a retry
decision the job returns to pending with `retry_count` incremented and
`next_retry_at = now + delay`, otherwise it moves to the dead-letter
state. -/
def handle_job_failure (job : Job) (err : ErrorKind) (now : ℕ) : Job :=
  match retry_decision job.retry_count job.max_retries err with
  | .retry d =>
      { job with status := .pending,
                 retry_count := job.retry_count + 1,
                 next_retry_at := some (now + d) }
  | .dead_letter => { job with status := .deadLetter }

/-- Circuit breaker state for one provider: CLOSED (with consecutive
failure count), OPEN (with `opened_at`), HALF_OPEN. -/
inductive CircuitState
| closed (failures : ℕ)
| opened (opened_at : ℕ)
| halfOpen
deriving DecidableEq

/-- Circuit breaker failure threshold, 5 failures. -/
def failure_threshold : ℕ := 5

/-- Circuit breaker open timeout, 60 seconds. -/
def open_timeout : ℕ := 60

/-- Modelled from the spec: the `CircuitBreaker` of
`services/error_recovery.py` is absent from the tree; per the summary
(threshold 5, timeout 60s, automatic recovery testing) and the spec,
admission is allowed while closed, denied while open until the timeout
elapses — the first admission after the timeout is the single
half-open probe — and denied while a probe is outstanding. -/
def cb_admit (s : CircuitState) (now : ℕ) : Bool × CircuitState :=
  match s with
  | .closed n => (true, .closed n)
  | .opened t =>
      if t + open_timeout ≤ now then (true, .halfOpen) else (false, .opened t)
  | .halfOpen => (false, .halfOpen)

/-- Modelled from the spec: recording an outcome on the circuit
breaker.  A success while closed or half-open closes the breaker and
resets the counter; a failure while closed increments the counter and
opens the breaker at the threshold; a failure of the half-open probe
reopens the breaker with a fresh `opened_at`. -/
def cb_record (s : CircuitState) (success : Bool) (now : ℕ) : CircuitState :=
  match s, success with
  | .closed _, true => .closed 0
  | .closed n, false =>
      if failure_threshold ≤ n + 1 then .opened now else .closed (n + 1)
  | .halfOpen, true => .closed 0
  | .halfOpen, false => .opened now
  | .opened t, _ => .opened t

/-- Accumulated token usage over the provider calls of a transcript
(pairs of input and output tokens), summed componentwise — the agent
loop's accumulated usage is the sum over all provider calls. -/
def accumulate_usage (transcript : List (ℕ × ℕ)) : ℕ × ℕ :=
  transcript.foldl (fun acc u => (acc.1 + u.1, acc.2 + u.2)) (0, 0)

/-- Settlement of token usage on the job row, translated from the
worker-integration snippet in the implementation summary:
`job.tokens_used_input = usage.get('input_tokens', 0)`,
`job.tokens_used_output = usage.get('output_tokens', 0)`,
`job.tokens_used_total = job.tokens_used_input + job.tokens_used_output`. -/
def settle_usage (job : Job) (usage : ℕ × ℕ) : Job :=
  { job with tokens_used_input := usage.1,
             tokens_used_output := usage.2,
             tokens_used_total := usage.1 + usage.2 }

/-- Default tool-output truncation ceiling, `output_truncate_length`:
5000 characters (configuration guide: "Maximum characters in tool
output", default 5000). -/
def output_truncate_length : ℕ := 5000

/-- Modelled from the spec: the tool-runner truncation code is absent
from the tree; per the configuration guide and the spec, output longer
than the ceiling is cut to the ceiling and flagged `truncated = true`,
output at or below the ceiling is returned whole without the flag.
Output is a list of characters and the cut is at a character
boundary. -/
def truncate_output (out : List Char) (ceiling : ℕ) : List Char × Bool :=
  if ceiling < out.length then (out.take ceiling, true) else (out, false)

/-- Budget-status response consumed by the cost dashboard
(frontend/src/pages/Costs.jsx, endpoint
`/costs/projects/{id}/budget`). -/
structure BudgetStatusResp where
  has_budget : Bool
  budget_allocated : ℚ
  actual_cost : ℚ
  remaining_budget : ℚ
  percentage_used : ℚ
  status : String
deriving DecidableEq

/-- Project-cost response consumed by the cost dashboard (endpoint
`/costs/projects/{id}`). -/
structure ProjectCost where
  total_cost : ℚ
  total_jobs : ℕ
  completed_jobs : ℕ
  failed_jobs : ℕ
  average_cost_per_job : ℚ
deriving DecidableEq

/-- Top-level sections the Costs page can render: the Budget Status
card (status badge, allocated/actual/remaining figures, progress bar,
warnings), the Cost Summary card, and the select-a-project prompt. -/
inductive CostsSection
| budgetStatusCard (resp : BudgetStatusResp)
| costSummaryCard (cost : ProjectCost)
| selectProjectPrompt
deriving DecidableEq

/-- Rendering of the Costs page, translated from the conditional JSX of
frontend/src/pages/Costs.jsx: the Budget Status card renders under
`budgetStatus && budgetStatus.has_budget`, the Cost Summary card under
`projectCost`, and the prompt under `!selectedProject`. -/
def renderCosts (budgetStatus : Option BudgetStatusResp)
    (projectCost : Option ProjectCost) (selectedProject : Option ℕ) :
    List CostsSection :=
  (match budgetStatus with
   | some r => if r.has_budget then [CostsSection.budgetStatusCard r] else []
   | none => []) ++
  (match projectCost with
   | some c => [CostsSection.costSummaryCard c]
   | none => []) ++
  (match selectedProject with
   | none => [CostsSection.selectProjectPrompt]
   | some _ => [])

/-- A sample job row in its initial state. -/
def sampleJob : Job :=
  { status := .pending,
    retry_count := 0,
    max_retries := 3,
    failure_reason := none,
    next_retry_at := none,
    tokens_used_input := 0,
    tokens_used_output := 0,
    tokens_used_total := 0 }

/-- A budget-status response for a project with no allocated budget;
its status value is "ok" as the backend reports for capless
projects. -/
def sampleNoBudgetResp : BudgetStatusResp :=
  { has_budget := false,
    budget_allocated := 0,
    actual_cost := 0,
    remaining_budget := 0,
    percentage_used := 0,
    status := "ok" }

/-- A project-cost response for a single completed job. -/
def sampleProjectCost : ProjectCost :=
  { total_cost := 21 / 2000,
    total_jobs := 1,
    completed_jobs := 1,
    failed_jobs := 0,
    average_cost_per_job := 21 / 2000 }

/-! Theorems -/

/-- Claim C1: for every provider, model and token counts for which the
price table has a pair `(price_in, price_out)`, the cost function
returns `(tokens_in/1e6)*price_in + (tokens_out/1e6)*price_out`
(exactly, in the rational model). -/
theorem claim_C1_cost_formula (p : Provider) (m : LLMModel)
    (tokens_in tokens_out : ℕ) (price_in price_out : ℚ)
    (h : pricing p m = some (price_in, price_out)) :
    calculate_cost p m tokens_in tokens_out =
      some ((tokens_in : ℚ) / 1000000 * price_in +
            (tokens_out : ℚ) / 1000000 * price_out) := by
  unfold calculate_cost
  rw [h]

/-- Witness for C1 at (anthropic, Claude Sonnet 4, 1000, 500). -/
theorem claim_C1_witness :
    pricing .anthropic .claudeSonnet4 = some (3, 15) ∧
    calculate_cost .anthropic .claudeSonnet4 1000 500 =
      some ((1000 : ℚ) / 1000000 * 3 + (500 : ℚ) / 1000000 * 15) :=
  ⟨rfl, claim_C1_cost_formula .anthropic .claudeSonnet4 1000 500 3 15 rfl⟩

/-- Claim C2: for a project with a positive allocated budget, the usage
percentage `actual/allocated*100` is classified ok strictly below 80,
warning in [80, 95), critical in [95, 100), exceeded at or above
100. -/
theorem claim_C2_budget_classification (allocated actual : ℚ)
    (h : 0 < allocated) :
    (actual / allocated * 100 < 80 → budget_status allocated actual = .ok) ∧
    (80 ≤ actual / allocated * 100 → actual / allocated * 100 < 95 →
        budget_status allocated actual = .warning) ∧
    (95 ≤ actual / allocated * 100 → actual / allocated * 100 < 100 →
        budget_status allocated actual = .critical) ∧
    (100 ≤ actual / allocated * 100 → budget_status allocated actual = .exceeded) := by
  unfold budget_status classify_budget
  refine ⟨fun h1 => ?_, fun h1 h2 => ?_, fun h1 h2 => ?_, fun h1 => ?_⟩ <;>
    split_ifs <;> first | rfl | linarith

/-- Witness for C2 on a 100 USD budget at the boundaries 79, 80, 95 and
100 percent. -/
theorem claim_C2_witness :
    (0 : ℚ) < 100 ∧
    budget_status 100 79 = .ok ∧
    budget_status 100 80 = .warning ∧
    budget_status 100 95 = .critical ∧
    budget_status 100 100 = .exceeded :=
  ⟨by norm_num,
   (claim_C2_budget_classification 100 79 (by norm_num)).1 (by norm_num),
   (claim_C2_budget_classification 100 80 (by norm_num)).2.1 (by norm_num) (by norm_num),
   (claim_C2_budget_classification 100 95 (by norm_num)).2.2.1 (by norm_num) (by norm_num),
   (claim_C2_budget_classification 100 100 (by norm_num)).2.2.2 (by norm_num)⟩

/-- Counterexample to C3: the completed job with usage in=1000, out=500
at prices 3.00/15.00 has computed cost 0.0105 = 21/2000, but the
NUMERIC(10,2) job-cost column stores 0.01, so the stored actual_cost is
not 0.0105. -/
theorem claim_C3_counterexample :
    calculate_cost .anthropic .claudeSonnet4 1000 500 = some (21 / 2000) ∧
    storeNumeric2 (21 / 2000) = 1 / 100 ∧
    (1 / 100 : ℚ) ≠ 21 / 2000 := by
  refine ⟨?_, ?_, by norm_num⟩
  · unfold calculate_cost pricing
    norm_num
  · unfold storeNumeric2
    rw [round_eq]
    norm_num

/-- Claim C3 amended: job costs are stored in NUMERIC(10,2) columns and
are therefore rounded to two decimal places at storage, not only for
presentation: the job with usage in=1000, out=500 at prices 3.00/15.00
has computed cost 0.0105 but stored actual_cost 0.01, and the budget
status derived from the stored value on a 100 USD budget is ok. -/
theorem claim_C3_stored_two_decimals :
    calculate_cost .anthropic .claudeSonnet4 1000 500 = some (21 / 2000) ∧
    storeNumeric2 (21 / 2000) = 1 / 100 ∧
    storeNumeric2 (21 / 2000) ≠ 21 / 2000 ∧
    budget_status 100 (storeNumeric2 (21 / 2000)) = .ok := by
  have hstore : storeNumeric2 (21 / 2000) = 1 / 100 := by
    unfold storeNumeric2
    rw [round_eq]
    norm_num
  refine ⟨?_, hstore, by rw [hstore]; norm_num, ?_⟩
  · unfold calculate_cost pricing
    norm_num
  · rw [hstore]
    unfold budget_status classify_budget
    norm_num

/-- Counterexample to C4: dispatching the pending sample job on a
project whose 0.01 USD budget is fully spent blocks it, but with
failure_reason "Project budget exceeded" (as in the worker code), not
the string "project budget exceeded" the claim states. -/
theorem claim_C4_counterexample :
    (dispatch_pending sampleJob (some (1 / 100)) (1 / 100)).1.status = .blocked ∧
    (dispatch_pending sampleJob (some (1 / 100)) (1 / 100)).1.failure_reason =
      some "Project budget exceeded" ∧
    (dispatch_pending sampleJob (some (1 / 100)) (1 / 100)).1.failure_reason ≠
      some "project budget exceeded" := by
  have hbs : budget_status (1 / 100) (1 / 100) = .exceeded := by
    unfold budget_status classify_budget
    norm_num
  have henf : enforce_budget_limit (some (1 / 100)) (1 / 100) = false := by
    show (if budget_status (1 / 100) (1 / 100) = .exceeded then false else true) = false
    rw [hbs, if_pos rfl]
  have hd : dispatch_pending sampleJob (some (1 / 100)) (1 / 100) =
      ({ sampleJob with status := .blocked,
                        failure_reason := some "Project budget exceeded" }, false) := by
    unfold dispatch_pending
    rw [henf]
    rfl
  exact ⟨by rw [hd], by rw [hd], by rw [hd]; decide⟩

/-- Claim C4 amended: for every pending job whose project has an
allocated budget with budget status exceeded at dispatch time, the
dispatcher never transitions the job to running: it sets status to
blocked and failure_reason to "Project budget exceeded", and issues no
provider call. -/
theorem claim_C4_budget_block (job : Job) (alloc actual : ℚ)
    (hpend : job.status = .pending)
    (hexc : budget_status alloc actual = .exceeded) :
    (dispatch_pending job (some alloc) actual).1.status = .blocked ∧
    (dispatch_pending job (some alloc) actual).1.failure_reason =
      some "Project budget exceeded" ∧
    (dispatch_pending job (some alloc) actual).2 = false ∧
    (dispatch_pending job (some alloc) actual).1.status ≠ .running := by
  refine ⟨?_, ?_, ?_, ?_⟩ <;>
    simp [dispatch_pending, enforce_budget_limit, hexc]

/-- Witness for C4 at the sample job over a fully spent 0.01 USD
budget. -/
theorem claim_C4_witness :
    sampleJob.status = .pending ∧
    budget_status (1 / 100) (1 / 100) = .exceeded ∧
    (dispatch_pending sampleJob (some (1 / 100)) (1 / 100)).2 = false := by
  have hbs : budget_status (1 / 100) (1 / 100) = .exceeded := by
    unfold budget_status classify_budget
    norm_num
  exact ⟨rfl, hbs, (claim_C4_budget_block sampleJob (1 / 100) (1 / 100) rfl hbs).2.2.1⟩

/-- Claim C5: a retriable failure with retry_count < max_retries yields
a retry decision with delay min(60s * 2^retry_count, 480s), returns the
job to pending with next_retry_at = now + delay and retry_count
incremented; the first retry is scheduled 60 seconds after the
failure. -/
theorem claim_C5_retry_backoff (job : Job) (now : ℕ)
    (h : job.retry_count < job.max_retries) :
    retry_decision job.retry_count job.max_retries .retriable =
      .retry (min (60 * 2 ^ job.retry_count) 480) ∧
    (handle_job_failure job .retriable now).status = .pending ∧
    (handle_job_failure job .retriable now).retry_count = job.retry_count + 1 ∧
    (handle_job_failure job .retriable now).next_retry_at =
      some (now + min (60 * 2 ^ job.retry_count) 480) ∧
    (job.retry_count = 0 →
      (handle_job_failure job .retriable now).next_retry_at = some (now + 60)) := by
  have hdec : retry_decision job.retry_count job.max_retries .retriable =
      .retry (min (60 * 2 ^ job.retry_count) 480) := by
    unfold retry_decision backoff_delay backoff_base backoff_ceiling
    rw [if_pos ⟨h, rfl⟩]
  refine ⟨hdec, ?_, ?_, ?_, ?_⟩ <;>
    simp [handle_job_failure, hdec]
  intro h0
  simp [h0]

/-- Witness for C5: the sample job (retry_count 0, max_retries 3)
failing at time 1000 is rescheduled for time 1060. -/
theorem claim_C5_witness :
    sampleJob.retry_count < sampleJob.max_retries ∧
    (handle_job_failure sampleJob .retriable 1000).next_retry_at = some 1060 ∧
    (handle_job_failure sampleJob .retriable 1000).retry_count = 1 := by
  refine ⟨by norm_num [sampleJob], ?_, ?_⟩
  · exact (claim_C5_retry_backoff sampleJob 1000 (by norm_num [sampleJob])).2.2.2.2 rfl
  · exact (claim_C5_retry_backoff sampleJob 1000 (by norm_num [sampleJob])).2.2.1

/-- Claim C6: a terminal error, or any failure with retry_count at
max_retries, yields a dead-letter decision (never a retry); from
retry_count = max_retries - 1 a retriable failure is retried once more,
after which any further failure dead-letters the job. -/
theorem claim_C6_dead_letter (job : Job) (now now2 : ℕ) :
    (∀ err : ErrorKind, err = .terminal ∨ job.max_retries ≤ job.retry_count →
        retry_decision job.retry_count job.max_retries err = .dead_letter) ∧
    (job.retry_count + 1 = job.max_retries →
        (handle_job_failure job .retriable now).retry_count = job.max_retries ∧
        ∀ err : ErrorKind,
          (handle_job_failure (handle_job_failure job .retriable now) err now2).status =
            .deadLetter) := by
  constructor
  · intro err herr
    unfold retry_decision
    rw [if_neg]
    rintro ⟨hlt, hret⟩
    rcases herr with rfl | hle
    · cases hret
    · omega
  · intro hmr
    have hlt : job.retry_count < job.max_retries := by omega
    have hdec : retry_decision job.retry_count job.max_retries .retriable =
        .retry (backoff_delay job.retry_count) := by
      unfold retry_decision
      rw [if_pos ⟨hlt, rfl⟩]
    have hstep : (handle_job_failure job .retriable now).retry_count =
        job.max_retries := by
      simp [handle_job_failure, hdec]
      omega
    refine ⟨hstep, fun err => ?_⟩
    have hmax : (handle_job_failure job .retriable now).max_retries =
        job.max_retries := by
      simp [handle_job_failure, hdec]
    have hdl : retry_decision (handle_job_failure job .retriable now).retry_count
        (handle_job_failure job .retriable now).max_retries err = .dead_letter := by
      unfold retry_decision
      rw [if_neg]
      rintro ⟨hlt2, -⟩
      rw [hstep, hmax] at hlt2
      omega
    generalize handle_job_failure job ErrorKind.retriable now = j1 at hdl ⊢
    unfold handle_job_failure
    rw [hdl]

/-- Witness for C6: a terminal error at retry_count 0 dead-letters, and
from retry_count 2 of 3 two consecutive retriable failures end in the
dead-letter state. -/
theorem claim_C6_witness :
    retry_decision sampleJob.retry_count sampleJob.max_retries .terminal =
      .dead_letter ∧
    (handle_job_failure
        (handle_job_failure { sampleJob with retry_count := 2 } .retriable 0)
        .retriable 100).status = .deadLetter :=
  ⟨(claim_C6_dead_letter sampleJob 0 0).1 .terminal (Or.inl rfl),
   ((claim_C6_dead_letter { sampleJob with retry_count := 2 } 0 100).2
      (by norm_num [sampleJob])).2 .retriable⟩

/-- Claim C7: with failure_threshold 5 and open_timeout 60s, admission
to an open breaker is denied before the timeout; the first admission
once the timeout has elapsed is allowed and moves the breaker to
half-open, where every further admission is denied until the probe's
outcome is recorded — success closes the breaker and resets the
counter, failure reopens it with a fresh opened_at. -/
theorem claim_C7_circuit_breaker (t now : ℕ) :
    failure_threshold = 5 ∧ open_timeout = 60 ∧
    (now < t + open_timeout → cb_admit (.opened t) now = (false, .opened t)) ∧
    (t + open_timeout ≤ now → cb_admit (.opened t) now = (true, .halfOpen)) ∧
    (∀ m : ℕ, cb_admit .halfOpen m = (false, .halfOpen)) ∧
    cb_record .halfOpen true now = .closed 0 ∧
    cb_record .halfOpen false now = .opened now := by
  refine ⟨rfl, rfl, fun h1 => ?_, fun h1 => ?_, fun m => rfl, rfl, rfl⟩
  · show (if t + open_timeout ≤ now then ((true : Bool), CircuitState.halfOpen)
        else (false, CircuitState.opened t)) = (false, CircuitState.opened t)
    rw [if_neg (by omega)]
  · show (if t + open_timeout ≤ now then ((true : Bool), CircuitState.halfOpen)
        else (false, CircuitState.opened t)) = (true, CircuitState.halfOpen)
    rw [if_pos h1]

/-- Witness for C7 on a breaker opened at time 0, probed at times 59
and 60. -/
theorem claim_C7_witness :
    cb_admit (.opened 0) 59 = (false, .opened 0) ∧
    cb_admit (.opened 0) 60 = (true, .halfOpen) ∧
    cb_admit .halfOpen 60 = (false, .halfOpen) ∧
    cb_record .halfOpen true 60 = .closed 0 ∧
    cb_record .halfOpen false 60 = .opened 60 :=
  ⟨(claim_C7_circuit_breaker 0 59).2.2.1 (by norm_num [open_timeout]),
   (claim_C7_circuit_breaker 0 60).2.2.2.1 (by norm_num [open_timeout]),
   (claim_C7_circuit_breaker 0 60).2.2.2.2.1 60,
   (claim_C7_circuit_breaker 0 60).2.2.2.2.2.1,
   (claim_C7_circuit_breaker 0 60).2.2.2.2.2.2⟩

/-- The componentwise fold over a transcript computes the sums of the
input and output columns. -/
theorem foldl_usage_spec (ts : List (ℕ × ℕ)) (a b : ℕ) :
    ts.foldl (fun acc u => (acc.1 + u.1, acc.2 + u.2)) (a, b) =
      (a + (ts.map Prod.fst).sum, b + (ts.map Prod.snd).sum) := by
  induction ts generalizing a b with
  | nil => simp
  | cons hd tl ih =>
    simp only [List.foldl_cons, List.map_cons, List.sum_cons, ih, Prod.mk.injEq]
    omega

/-- Accumulated usage is the pair of column sums of the transcript. -/
theorem accumulate_usage_spec (ts : List (ℕ × ℕ)) :
    accumulate_usage ts = ((ts.map Prod.fst).sum, (ts.map Prod.snd).sum) := by
  unfold accumulate_usage
  rw [foldl_usage_spec]
  simp

/-- Claim C8: after settling the usage accumulated from a job's
transcript, tokens_used_total equals tokens_used_input plus
tokens_used_output, and equals the sum of the per-call usages of the
transcript. -/
theorem claim_C8_token_totals (job : Job) (transcript : List (ℕ × ℕ)) :
    (settle_usage job (accumulate_usage transcript)).tokens_used_total =
      (settle_usage job (accumulate_usage transcript)).tokens_used_input +
        (settle_usage job (accumulate_usage transcript)).tokens_used_output ∧
    (settle_usage job (accumulate_usage transcript)).tokens_used_total =
      (transcript.map fun u => u.1 + u.2).sum := by
  refine ⟨rfl, ?_⟩
  show (accumulate_usage transcript).1 + (accumulate_usage transcript).2 = _
  rw [accumulate_usage_spec]
  induction transcript with
  | nil => simp
  | cons hd tl ih =>
    simp only [List.map_cons, List.sum_cons] at ih ⊢
    omega

/-- Claim C9: with the default ceiling output_truncate_length = 5000,
tool output longer than the ceiling is cut to exactly the ceiling and
flagged truncated; output of exactly the ceiling length is returned
whole without the flag; output one character longer carries the
flag. -/
theorem claim_C9_truncation (out : List Char) (ceiling : ℕ) :
    output_truncate_length = 5000 ∧
    (ceiling < out.length →
        truncate_output out ceiling = (out.take ceiling, true) ∧
        (out.take ceiling).length = ceiling) ∧
    (out.length = ceiling → truncate_output out ceiling = (out, false)) ∧
    (out.length = ceiling + 1 → (truncate_output out ceiling).2 = true) := by
  refine ⟨rfl, fun h1 => ⟨?_, ?_⟩, fun h1 => ?_, fun h1 => ?_⟩
  · unfold truncate_output
    rw [if_pos h1]
  · rw [List.length_take]
    omega
  · unfold truncate_output
    rw [if_neg (by omega)]
  · unfold truncate_output
    rw [if_pos (by omega)]

/-- Witness for C9 on the three-character output "abc" with ceilings 2
and 3. -/
theorem claim_C9_witness :
    truncate_output ['a', 'b', 'c'] 2 = (['a', 'b'], true) ∧
    truncate_output ['a', 'b', 'c'] 3 = (['a', 'b', 'c'], false) ∧
    (truncate_output ['a', 'b', 'c'] 2).2 = true :=
  ⟨(((claim_C9_truncation ['a', 'b', 'c'] 2).2.1 (by decide)).1).trans (by decide),
   (claim_C9_truncation ['a', 'b', 'c'] 3).2.2.1 (by decide),
   (claim_C9_truncation ['a', 'b', 'c'] 2).2.2.2 rfl⟩

/-- Claim C10: the Costs page renders the Budget Status card only when
the budget-status response has has_budget = true; for a response with
has_budget = false (whatever its status value, including "ok"), no
Budget Status card appears among the rendered sections. -/
theorem claim_C10_no_budget_section (r : BudgetStatusResp)
    (projectCost : Option ProjectCost) (selectedProject : Option ℕ)
    (h : r.has_budget = false) :
    ∀ x : BudgetStatusResp,
      CostsSection.budgetStatusCard x ∉
        renderCosts (some r) projectCost selectedProject := by
  intro x
  cases projectCost <;> cases selectedProject <;> simp [renderCosts, h]

/-- Witness for C10: a no-budget response whose status value is "ok" is
rendered without a Budget Status card even while a cost summary is
shown for the selected project. -/
theorem claim_C10_witness :
    sampleNoBudgetResp.has_budget = false ∧
    sampleNoBudgetResp.status = "ok" ∧
    CostsSection.budgetStatusCard sampleNoBudgetResp ∉
      renderCosts (some sampleNoBudgetResp) (some sampleProjectCost) (some 1) :=
  ⟨rfl, rfl,
   claim_C10_no_budget_section sampleNoBudgetResp (some sampleProjectCost) (some 1)
     rfl sampleNoBudgetResp⟩

end CodeAgent
